import Mathlib

/-!
Verification of the monggregate expression/stage builder core.

The development shallowly embeds the Python source: pydantic models become
structures, `statement` properties become pure functions on a JSON-like
value type, raised exceptions become `Except` errors, and in-place mutation
of builder objects becomes explicit state passing (a method returns its
result together with the updated receiver).
-/

/-- JSON-like documents: the wire format produced by compilation. -/
inductive Value where
  | null : Value
  | bool : Bool → Value
  | int : Int → Value
  | str : String → Value
  | arr : List Value → Value
  | doc : List (String × Value) → Value
deriving Repr

/-- Python exceptions raised by the source, tagged by their class. -/
inductive PyError where
  | typeError (msg : String) : PyError
  | attributeError (msg : String) : PyError
  | validationError (msg : String) : PyError
deriving Repr, DecidableEq

/-! ## Lookup stage (src/app/stages/lookup.py) -/

/-- The `Lookup` pydantic model: four required string fields (`right`/`from`,
`left_on`/`local_field`, `right_on`/`foreign_field`, `name`/`as`), a required
`let` dict and a required `pipeline` list of dicts. -/
structure Lookup where
  right : String
  left_on : String
  right_on : String
  name : String
  «let» : List (String × Value)
  pipeline : List Value
deriving Repr

/-- Construction of a `Lookup`: the source class declares only typed fields and
no validator of its own, so every well-typed construction succeeds. -/
def Lookup.mkLookup (right left_on right_on name : String)
    (letv : List (String × Value)) (pipeline : List Value) : Except PyError Lookup :=
  Except.ok ⟨right, left_on, right_on, name, letv, pipeline⟩

/-- Modelled from the spec: the join-stage compiles to the single-key document
`\x7b$lookup: \x7bfrom, localField, foreignField, as, let, pipeline\x7d\x7d` (the
`statement` property lives in the stage base class, which is not part of the
provided sources). -/
def Lookup.statement (l : Lookup) : Value :=
  Value.doc [("$lookup", Value.doc [
    ("from", Value.str l.right),
    ("localField", Value.str l.left_on),
    ("foreignField", Value.str l.right_on),
    ("as", Value.str l.name),
    ("let", Value.doc l.«let»),
    ("pipeline", Value.arr l.pipeline)])]

/-- A document whose key is `$out` or `$merge`: the terminal stage kinds the
spec says a lookup sub-pipeline must not contain. -/
def isForbiddenStageDoc : Value → Bool
  | Value.doc kvs => kvs.any (fun kv => kv.1 = "$out" ∨ kv.1 = "$merge")
  | _ => false

/-- A sub-pipeline contains a forbidden terminal stage somewhere in it. -/
def hasForbiddenStage (pipeline : List Value) : Bool :=
  pipeline.any isForbiddenStageDoc

/-! ## BucketAuto stage (src/src/monggregate/stages/bucket_auto.py) -/

/-- Supported values of granularity. -/
inductive GranularityEnum where
  | R5 | R10 | R20 | R40 | R80 | _1_2_5
  | E6 | E12 | E24 | E48 | E96 | E192 | POWERSOF2
deriving Repr, DecidableEq

/-- The string tag each granularity serializes to. -/
def GranularityEnum.value : GranularityEnum → String
  | .R5 => "R5"
  | .R10 => "R10"
  | .R20 => "R20"
  | .R40 => "R40"
  | .R80 => "R80"
  | ._1_2_5 => "1-2-5"
  | .E6 => "E6"
  | .E12 => "E12"
  | .E24 => "E24"
  | .E48 => "E48"
  | .E96 => "E96"
  | .E192 => "E192"
  | .POWERSOF2 => "POWERSOF2"

/-- Modelled from the spec: `validate_field_path` (monggregate.utils, not among
the provided sources) validates `by` as a field path or expression; a field
path keeps its `$` reference-prefix marker intact, and a bare string is
prefixed with the marker. Non-string expressions pass through unchanged. -/
def validate_field_path : Value → Value
  | Value.str s =>
    match s.data with
    | '$' :: _ => Value.str s
    | _ => Value.str ("$" ++ s)
  | v => v

/-- The `BucketAuto` pydantic model: `by` (aliased `group_by`), `buckets`
(declared with `gt=0`), optional `output` (accumulator-expression mapping) and
optional `granularity`. -/
structure BucketAuto where
  «by» : Value
  buckets : Int
  output : Option (List (String × Value))
  granularity : Option GranularityEnum
deriving Repr

/-- Construction of a `BucketAuto`: pydantic enforces `buckets > 0` and runs
`validate_field_path` on `by`; everything else is type checking. -/
def BucketAuto.mkBucketAuto (byv : Value) (buckets : Int)
    (output : Option (List (String × Value))) (granularity : Option GranularityEnum) :
    Except PyError BucketAuto :=
  if buckets > 0 then
    Except.ok ⟨validate_field_path byv, buckets, output, granularity⟩
  else
    Except.error (PyError.validationError "buckets: ensure this value is greater than 0")

/-- The `$bucketAuto` statement: groupBy, buckets, output, granularity, with
`output` and `granularity` serialized as `null` when unset. -/
def BucketAuto.statement (b : BucketAuto) : Value :=
  Value.doc [("$bucketAuto", Value.doc [
    ("groupBy", b.«by»),
    ("buckets", Value.int b.buckets),
    ("output", match b.output with
      | some o => Value.doc o
      | none => Value.null),
    ("granularity", match b.granularity with
      | some g => Value.str g.value
      | none => Value.null)])]

/-! ## Accumulator operator Last (src/monggregate/operators/accumulators/last.py) -/

/-- The `Last` accumulator operator model: a single `expression` field. The
`convert_expression` validator replaces a nested accumulator by its statement;
in this embedding expressions are already compiled values. -/
structure Last where
  expression : Value
deriving Repr

/-- The statement the source emits for `Last`: the source wraps the expression
under the key `"$push"`. -/
def Last.statement (l : Last) : Value :=
  Value.doc [("$push", l.expression)]

/-- The `last` helper function of the source module. -/
def last (expression : Value) : Value :=
  (Last.mk expression).statement

/-! ## Array operator IN (src/monggregate/operators/array/in_.py) -/

/-- The `IN` array operator model: an `expression` field and an `array` field
(aliased `input`), in that declared order. -/
structure IN where
  expression : Value
  array : Value
deriving Repr

/-- The `$in` statement: a fixed two-element array holding the compiled
`expression` first and the compiled `array` second. -/
def IN.statement (i : IN) : Value :=
  Value.doc [("$in", Value.arr [i.expression, i.array])]

/-! ## Search operators and the search stage (src/monggregate/stages/search/base.py) -/

/-- Clause types of a boolean-compound operator. -/
inductive ClauseType where
  | must | mustNot | should | filter
deriving Repr, DecidableEq

/-- The Atlas Search operator kinds reachable from the search stage: the
boolean-compound operator with its four named clause groups, and the leaf
operators with the parameters their constructors receive. -/
inductive SearchOperator where
  | compound (must must_not should filter : List SearchOperator) (minimum_should_match : Int)
  | autocomplete (query path : Value) (token_order : String) (fuzzy score : Option Value)
  | equals (path value : Value) (score : Option Value)
  | «exists» (path : Value)
  | range (path : Value) (gt lt gte lte : Option Value) (score : Option Value)
  | regex (query path : Value) (allow_analyzed_field : Bool) (score : Option Value)
  | text (query path : Value) (fuzzy score : Option Value) (synonyms : Option String)
  | wildcard (query path : Value) (allow_analyzed_field : Bool) (score : Option Value)
  | moreLikeThis (like : Value)
deriving Repr

/-- Whether an operator is the boolean-compound operator (the `isinstance`
check of the source's helper methods). -/
def SearchOperator.isCompound : SearchOperator → Bool
  | SearchOperator.compound .. => true
  | _ => false

/-- Modelled from the spec: a clause-appending builder of the compound operator
(monggregate.search.operators.compound, not among the provided sources) appends
the new clause to the named clause group, preserving per-clause insertion
order; on a non-compound operator it is never reached. -/
def SearchOperator.addClause (c : SearchOperator) (type : ClauseType) (op : SearchOperator) :
    SearchOperator :=
  match c with
  | SearchOperator.compound m mn sh f msm =>
    match type with
    | ClauseType.must => SearchOperator.compound (m ++ [op]) mn sh f msm
    | ClauseType.mustNot => SearchOperator.compound m (mn ++ [op]) sh f msm
    | ClauseType.should => SearchOperator.compound m mn (sh ++ [op]) f msm
    | ClauseType.filter => SearchOperator.compound m mn sh (f ++ [op]) msm
  | c => c

/-- Modelled from the spec: the string rendering of an operator, as interpolated
into the helper error messages, names the operator kind. -/
def SearchOperator.pyStr : SearchOperator → String
  | SearchOperator.compound .. => "Compound"
  | SearchOperator.autocomplete .. => "Autocomplete"
  | SearchOperator.equals .. => "Equals"
  | SearchOperator.«exists» .. => "Exists"
  | SearchOperator.range .. => "Range"
  | SearchOperator.regex .. => "Regex"
  | SearchOperator.text .. => "Text"
  | SearchOperator.wildcard .. => "Wildcard"
  | SearchOperator.moreLikeThis .. => "MoreLikeThis"

/-- Python rendering of `self.operator`, which may be `None`. -/
def strOptOperator : Option SearchOperator → String
  | none => "None"
  | some op => op.pyStr

/-- Modelled from the spec: a collector performs a facet-style aggregation over
sub-operators (its internals are not needed here; only its presence matters). -/
structure Facet where
  operator : Option SearchOperator
deriving Repr

/-- The `SearchBase` model: the `SearchConfig` fields plus the collector, the
operator and the compound-specific `minimum_should_match`. -/
structure SearchBase where
  index : String
  count : Option Value
  highlight : Option Value
  return_stored_source : Bool
  score_details : Bool
  collector : Option Facet
  operator : Option SearchOperator
  minimum_should_match : Int
deriving Repr

/-- The keyword-argument surface of `SearchBase` construction relevant to its
validators: each field is `none` when the key is absent and `some v` when the
key is supplied with value `v` (itself possibly Python `None`). -/
structure SearchInput where
  collector : Option (Option Facet)
  operator : Option (Option SearchOperator)
  minimum_should_match : Option Int
  minimumShouldMatch : Option Int

/-- Python `or` on optional integers: the left operand when present and truthy
(non-zero), otherwise the right operand. -/
def pyOrInt : Option Int → Option Int → Option Int
  | some v, y => if v = 0 then y else some v
  | none, y => y

/-- The `init` pre root validator: when neither the `collector` nor the
`operator` key is supplied, default `operator` to an empty compound operator
whose count is taken from the `minimum_should_match` / `minimumShouldMatch`
keys, defaulting to 0. -/
def SearchBase.init (values : SearchInput) : SearchInput :=
  if values.collector.isNone && values.operator.isNone then
    let msm := (pyOrInt values.minimum_should_match values.minimumShouldMatch).getD 0
    {values with operator := some (some (SearchOperator.compound [] [] [] [] msm))}
  else values

/-- The `operator` field validator: exactly one of collector/operator must be
truthy, otherwise a `TypeError` is raised. -/
def SearchBase.validate_operator (collector : Option Facet) (value : Option SearchOperator) :
    Except PyError (Option SearchOperator) :=
  if collector.isNone && value.isNone then
    Except.error (PyError.typeError "Either collector or operator must be provided")
  else if collector.isSome && value.isSome then
    Except.error (PyError.typeError "Only one of collector or operator can be provided")
  else Except.ok value

/-- Construction of a `SearchBase` from its keyword arguments: the pre root
validator runs first, then the `operator` field validator (`pre=True,
always=True`), then the model is assembled with the `SearchConfig` defaults. -/
def SearchBase.mkSearchBase (input : SearchInput) : Except PyError SearchBase :=
  let values := SearchBase.init input
  let collector := values.collector.join
  match SearchBase.validate_operator collector values.operator.join with
  | Except.error e => Except.error e
  | Except.ok op =>
      Except.ok
        { index := "default"
          count := none
          highlight := none
          return_stored_source := false
          score_details := false
          collector := collector
          operator := op
          minimum_should_match := values.minimum_should_match.getD 0 }

/-- Whether the stage's current operator is a boolean-compound operator. -/
def isCompoundOpt : Option SearchOperator → Bool
  | some op => op.isCompound
  | none => false

/-- The `autocomplete` clause helper of the search stage: appends an
autocomplete clause to the current compound operator and returns the stage,
raising `TypeError` when the current operator is not a compound. -/
def SearchBase.autocomplete (s : SearchBase) (type : ClauseType) (query path : Value)
    (token_order : String) (fuzzy score : Option Value) : Except PyError SearchBase :=
  if isCompoundOpt s.operator then
    let op2 := s.operator.map (fun op => op.addClause type (SearchOperator.autocomplete query path token_order fuzzy score))
    Except.ok {s with operator := op2}
  else
    Except.error (PyError.typeError ("Cannot call autocomplete on " ++ strOptOperator s.operator))

/-- The `equals` clause helper of the search stage. -/
def SearchBase.equals (s : SearchBase) (type : ClauseType) (path value : Value)
    (score : Option Value) : Except PyError SearchBase :=
  if isCompoundOpt s.operator then
    let op2 := s.operator.map (fun op => op.addClause type (SearchOperator.equals path value score))
    Except.ok {s with operator := op2}
  else
    Except.error (PyError.typeError ("Cannot call equals on " ++ strOptOperator s.operator))

/-- The `exists` clause helper of the search stage. -/
def SearchBase.«exists» (s : SearchBase) (type : ClauseType) (path : Value) :
    Except PyError SearchBase :=
  if isCompoundOpt s.operator then
    let op2 := s.operator.map (fun op => op.addClause type (SearchOperator.«exists» path))
    Except.ok {s with operator := op2}
  else
    Except.error (PyError.typeError ("Cannot call exists on " ++ strOptOperator s.operator))

/-- The `range` clause helper of the search stage. -/
def SearchBase.range (s : SearchBase) (type : ClauseType) (path : Value)
    (gt lt gte lte : Option Value) (score : Option Value) : Except PyError SearchBase :=
  if isCompoundOpt s.operator then
    let op2 := s.operator.map (fun op => op.addClause type (SearchOperator.range path gt lt gte lte score))
    Except.ok {s with operator := op2}
  else
    Except.error (PyError.typeError ("Cannot call range on " ++ strOptOperator s.operator))

/-- The `regex` clause helper of the search stage. -/
def SearchBase.regex (s : SearchBase) (type : ClauseType) (query path : Value)
    (allow_analyzed_field : Bool) (score : Option Value) : Except PyError SearchBase :=
  if isCompoundOpt s.operator then
    let op2 := s.operator.map (fun op => op.addClause type (SearchOperator.regex query path allow_analyzed_field score))
    Except.ok {s with operator := op2}
  else
    Except.error (PyError.typeError ("Cannot call regex on " ++ strOptOperator s.operator))

/-- The `text` clause helper of the search stage. -/
def SearchBase.text (s : SearchBase) (type : ClauseType) (query path : Value)
    (fuzzy score : Option Value) (synonyms : Option String) : Except PyError SearchBase :=
  if isCompoundOpt s.operator then
    let op2 := s.operator.map (fun op => op.addClause type (SearchOperator.text query path fuzzy score synonyms))
    Except.ok {s with operator := op2}
  else
    Except.error (PyError.typeError ("Cannot call text on " ++ strOptOperator s.operator))

/-- The `wildcard` clause helper of the search stage. -/
def SearchBase.wildcard (s : SearchBase) (type : ClauseType) (query path : Value)
    (allow_analyzed_field : Bool) (score : Option Value) : Except PyError SearchBase :=
  if isCompoundOpt s.operator then
    let op2 := s.operator.map (fun op => op.addClause type (SearchOperator.wildcard query path allow_analyzed_field score))
    Except.ok {s with operator := op2}
  else
    Except.error (PyError.typeError ("Cannot call wildcard on " ++ strOptOperator s.operator))

/-- The `compound` nested-compound helper of the search stage: builds a new
compound operator from the given clause lists, appends it to the named clause
group of the current compound (modelled from the spec, since the compound
builder itself is not among the provided sources), and returns the newly
created nested compound together with the updated stage; the source returns
the nested compound, mutating the stage in place. -/
def SearchBase.compound (s : SearchBase) (type : ClauseType)
    (must must_not should filter : List SearchOperator) (minimum_should_match : Int) :
    Except PyError (SearchOperator × SearchBase) :=
  if isCompoundOpt s.operator then
    let nested := SearchOperator.compound must must_not should filter minimum_should_match
    Except.ok (nested, {s with operator := s.operator.map (fun op => op.addClause type nested)})
  else
    Except.error (PyError.typeError ("Cannot call compound on " ++ strOptOperator s.operator))

/-! ## Pipeline composer (src/app/pipeline.py) -/

/-- Possible behaviors on pipeline call. -/
inductive OnCallEnum where
  | RUN | EXPORT
deriving Repr, DecidableEq

/-- The stages a pipeline holds: the stage kinds whose sources are provided,
plus a generic stage kind. Modelled from the spec: a generic stage (filter,
projection, sort, limit, skip, sampling, grouping, …) wraps a single parameter
set and compiles to a single-key document under its wire name. -/
inductive Stage where
  | bucketAuto (b : BucketAuto)
  | lookup (l : Lookup)
  | generic (wireName : String) (body : Value)
deriving Repr

/-- Calling a stage (`stage()`) returns its compiled statement. -/
def stageCall : Stage → Value
  | Stage.bucketAuto b => b.statement
  | Stage.lookup l => l.statement
  | Stage.generic wireName body => Value.doc [(wireName, body)]

/-- The external executor collaborator: a pymongo database, reduced to its
`aggregate` interface (collection and compiled statements in, rows out). -/
structure Database where
  aggregate : String → List Value → List Value

/-- The `Pipeline` model: an optional database, the on-call behavior flag, the
target collection and the ordered stage list. -/
structure Pipeline where
  _db : Option Database
  on_call : OnCallEnum
  collection : String
  stages : List Stage

/-- The accumulation loop of `Pipeline.export`: starts from an empty list and
appends each stage's compiled statement in turn. -/
def exportLoop (acc : List Value) : List Stage → List Value
  | [] => acc
  | s :: rest => exportLoop (acc ++ [stageCall s]) rest

/-- `Pipeline.export`: compiles the pipeline to the ordered statement list. -/
def Pipeline.«export» (p : Pipeline) : List Value :=
  exportLoop [] p.stages

/-- `Pipeline.run`: exports the statements, then either passes them to the
database's `aggregate` for the pipeline's collection, or raises
`AttributeError` when no database was provided. -/
def Pipeline.run (p : Pipeline) : Except PyError (List Value) :=
  let stages := p.«export»
  match p._db with
  | some db => Except.ok (db.aggregate p.collection stages)
  | none => Except.error (PyError.attributeError "run is not available when no database is provided")

/-- `Pipeline.__call__`: dispatches on the `on_call` flag to `export` or
`run`. -/
def Pipeline.call (p : Pipeline) : Except PyError (List Value) :=
  match p.on_call with
  | OnCallEnum.EXPORT => Except.ok p.«export»
  | OnCallEnum.RUN => p.run

/-- Calling a stage in state-passing form: the compiled statement together
with the receiver, which the statement properties of the source never
mutate. -/
def stageCallState (s : Stage) : Value × Stage :=
  (stageCall s, s)

/-- The export loop in state-passing form: threads every stage object through
its call, returning the statement list together with the stage objects as
left by compilation. -/
def exportLoopState (acc : List Value) : List Stage → List Value × List Stage
  | [] => (acc, [])
  | s :: rest =>
    let vs := stageCallState s
    let res := exportLoopState (acc ++ [vs.1]) rest
    (res.1, vs.2 :: res.2)

/-- `Pipeline.export` in state-passing form: the statement list together with
the pipeline as left by compilation. -/
def Pipeline.export_state (p : Pipeline) : List Value × Pipeline :=
  let res := exportLoopState [] p.stages
  (res.1, {p with stages := res.2})

/-- Looks up a key in a compiled document. -/
def Value.getKey : Value → String → Option Value
  | Value.doc kvs, k => (kvs.find? (fun kv => kv.1 = k)).map (fun kv => kv.2)
  | _, _ => none

/-! ## Helper lemmas -/

theorem exportLoop_eq (l : List Stage) : ∀ acc, exportLoop acc l = acc ++ l.map stageCall := by
  induction l with
  | nil => intro acc; simp [exportLoop]
  | cons s rest ih => intro acc; simp [exportLoop, ih]

theorem exportLoopState_eq (l : List Stage) :
    ∀ acc, exportLoopState acc l = (exportLoop acc l, l) := by
  induction l with
  | nil => intro acc; simp [exportLoopState, exportLoop]
  | cons s rest ih => intro acc; simp [exportLoopState, exportLoop, stageCallState, ih]

theorem pyOrInt_some_none_getD (m : Int) : (pyOrInt (some m) none).getD 0 = m := by
  by_cases hm : m = 0 <;> simp [pyOrInt, hm]

/-! ## Sample objects used by the witnesses -/

/-- A three-stage pipeline in export mode: filter, sort, limit 5. -/
def samplePipeline : Pipeline :=
  { _db := none
    on_call := OnCallEnum.EXPORT
    collection := "listingsAndReviews"
    stages := [
      Stage.generic "$match" (Value.doc [("room_type", Value.str "Entire home/apt")]),
      Stage.generic "$sort" (Value.doc [("price", Value.int 1)]),
      Stage.generic "$limit" (Value.int 5)] }

/-- The sample pipeline switched to run mode, still without a database. -/
def runPipelineNoDb : Pipeline :=
  {samplePipeline with on_call := OnCallEnum.RUN}

/-- A database whose aggregate echoes the statements it receives. -/
def echoDatabase : Database :=
  ⟨fun _ statements => statements⟩

/-- The sample pipeline in run mode with the echo database attached. -/
def runPipelineWithDb : Pipeline :=
  {samplePipeline with on_call := OnCallEnum.RUN, _db := some echoDatabase}

/-- A search stage whose current operator is an empty compound. -/
def searchWithCompound : SearchBase :=
  { index := "default"
    count := none
    highlight := none
    return_stored_source := false
    score_details := false
    collector := none
    operator := some (SearchOperator.compound [] [] [] [] 0)
    minimum_should_match := 0 }

/-- A search stage whose current operator is an exists operator. -/
def searchWithExists : SearchBase :=
  {searchWithCompound with operator := some (SearchOperator.«exists» (Value.str "published"))}

/-! ## Claim theorems -/

/-- Claim C1: exporting a pipeline returns one document per stage, the i-th
entry being the compiled statement of the i-th appended stage, with stage
order preserved exactly; calling the pipeline in export mode returns the same
list as export. -/
theorem c1_export_preserves_stage_order (p : Pipeline) :
    p.«export».length = p.stages.length ∧
    (∀ i : Nat, p.«export»[i]? = (p.stages[i]?).map stageCall) ∧
    (p.on_call = OnCallEnum.EXPORT → p.call = Except.ok p.«export») := by
  have h : p.«export» = p.stages.map stageCall := by
    simp [Pipeline.«export», exportLoop_eq]
  exact ⟨by simp [h], fun i => by simp [h], fun hc => by simp [Pipeline.call, hc]⟩

/-- Claim C1 witness: the three-stage sample pipeline. -/
theorem c1_export_preserves_stage_order_witness :
    samplePipeline.«export».length = samplePipeline.stages.length ∧
    samplePipeline.«export»[1]? = (samplePipeline.stages[1]?).map stageCall ∧
    samplePipeline.call = Except.ok samplePipeline.«export» := by
  obtain ⟨h1, h2, h3⟩ := c1_export_preserves_stage_order samplePipeline
  exact ⟨h1, h2 1, h3 rfl⟩

/-- Claim C9: compilation is pure — exporting leaves the pipeline and its
stages unchanged, and compiling the pipeline again after a compile yields the
same output. -/
theorem c9_export_pure_and_idempotent (p : Pipeline) :
    p.export_state.2 = p ∧ p.export_state.1 = p.export_state.2.export_state.1 := by
  have h : p.export_state = (p.«export», p) := by
    cases p with
    | mk db oc coll stages =>
      simp [Pipeline.export_state, Pipeline.«export», exportLoopState_eq]
  constructor
  · rw [h]
  · rw [h, h]

/-- Claim C8: run mode without a database fails with the configured error
instead of falling back to export output; with a database the exported
statements are passed to its aggregate for the pipeline's collection; calling
in run mode dispatches to run. -/
theorem c8_run_requires_database (p : Pipeline) :
    (p._db = none →
      p.run = Except.error
        (PyError.attributeError "run is not available when no database is provided")) ∧
    (∀ db, p._db = some db →
      p.run = Except.ok (db.aggregate p.collection p.«export»)) ∧
    (p.on_call = OnCallEnum.RUN → p.call = p.run) := by
  refine ⟨fun h => ?_, fun db h => ?_, fun h => ?_⟩
  · simp [Pipeline.run, h]
  · simp [Pipeline.run, h]
  · simp [Pipeline.call, h]

/-- Claim C8 witness: the sample pipeline in run mode, without and with a
database. -/
theorem c8_run_requires_database_witness :
    runPipelineNoDb.run = Except.error
      (PyError.attributeError "run is not available when no database is provided") ∧
    runPipelineWithDb.run =
      Except.ok (echoDatabase.aggregate runPipelineWithDb.collection runPipelineWithDb.«export») ∧
    runPipelineNoDb.call = runPipelineNoDb.run := by
  refine ⟨(c8_run_requires_database runPipelineNoDb).1 rfl, ?_, ?_⟩
  · exact (c8_run_requires_database runPipelineWithDb).2.1 echoDatabase rfl
  · exact (c8_run_requires_database runPipelineNoDb).2.2 rfl

/-- Claim C2: a search stage constructed with both a collector and an operator
fails with an error; constructed with neither, its operator defaults to an
empty compound with minimum_should_match 0, or the caller-supplied count when
one is given. -/
theorem c2_search_collector_operator_exclusive (v : SearchInput) :
    (∀ f op, v.collector = some (some f) → v.operator = some (some op) →
      SearchBase.mkSearchBase v =
        Except.error (PyError.typeError "Only one of collector or operator can be provided")) ∧
    (v.collector = none → v.operator = none → v.minimum_should_match = none →
      v.minimumShouldMatch = none →
      ∃ s, SearchBase.mkSearchBase v = Except.ok s ∧
        s.operator = some (SearchOperator.compound [] [] [] [] 0)) ∧
    (∀ m, v.collector = none → v.operator = none → v.minimum_should_match = some m →
      v.minimumShouldMatch = none →
      ∃ s, SearchBase.mkSearchBase v = Except.ok s ∧
        s.operator = some (SearchOperator.compound [] [] [] [] m)) := by
  obtain ⟨c, o, m1, m2⟩ := v
  refine ⟨?_, ?_, ?_⟩
  · rintro f op rfl rfl
    simp [SearchBase.mkSearchBase, SearchBase.init, SearchBase.validate_operator, Option.join]
  · rintro rfl rfl rfl rfl
    exact ⟨_, rfl, rfl⟩
  · rintro m rfl rfl rfl rfl
    refine ⟨{ index := "default", count := none, highlight := none,
              return_stored_source := false, score_details := false, collector := none,
              operator := some (SearchOperator.compound [] [] [] [] m),
              minimum_should_match := m }, ?_, rfl⟩
    simp [SearchBase.mkSearchBase, SearchBase.init, SearchBase.validate_operator,
      Option.join, pyOrInt_some_none_getD]

/-- Claim C2 witness: concrete constructions with both, with neither, and with
a caller-supplied minimum-should-match count. -/
theorem c2_search_collector_operator_exclusive_witness :
    SearchBase.mkSearchBase
        ⟨some (some ⟨none⟩), some (some (SearchOperator.«exists» (Value.str "f"))), none, none⟩ =
      Except.error (PyError.typeError "Only one of collector or operator can be provided") ∧
    (∃ s, SearchBase.mkSearchBase ⟨none, none, none, none⟩ = Except.ok s ∧
      s.operator = some (SearchOperator.compound [] [] [] [] 0)) ∧
    (∃ s, SearchBase.mkSearchBase ⟨none, none, some 3, none⟩ = Except.ok s ∧
      s.operator = some (SearchOperator.compound [] [] [] [] 3)) := by
  refine ⟨?_, ?_, ?_⟩
  · exact (c2_search_collector_operator_exclusive _).1 _ _ rfl rfl
  · exact (c2_search_collector_operator_exclusive _).2.1 rfl rfl rfl rfl
  · exact (c2_search_collector_operator_exclusive _).2.2 3 rfl rfl rfl rfl

/-- Claim C3 (counterexample): a lookup constructed with a sub-pipeline that
contains the forbidden terminal $out stage nevertheless constructs
successfully — the source class declares no structural validator, so
construction does not fail as the claim states. -/
theorem c3_forbidden_subpipeline_accepted :
    hasForbiddenStage [Value.doc [("$out", Value.str "archive")]] = true ∧
    Lookup.mkLookup "X" "a" "b" "out" [] [Value.doc [("$out", Value.str "archive")]] =
      Except.ok ⟨"X", "a", "b", "out", [], [Value.doc [("$out", Value.str "archive")]]⟩ := by
  exact ⟨rfl, rfl⟩

/-- Claim C3 (amended): lookup construction never inspects the sub-pipeline —
every well-typed construction succeeds, including one whose sub-pipeline holds
a write-out or merge stage, and the stage compiles to the single-key $lookup
document with the from/localField/foreignField/as/let/pipeline body. -/
theorem c3_lookup_construction_and_statement (right left_on right_on name : String)
    (letv : List (String × Value)) (pl : List Value) :
    Lookup.mkLookup right left_on right_on name letv pl =
      Except.ok ⟨right, left_on, right_on, name, letv, pl⟩ ∧
    (Lookup.mk right left_on right_on name letv pl).statement =
      Value.doc [("$lookup", Value.doc [
        ("from", Value.str right),
        ("localField", Value.str left_on),
        ("foreignField", Value.str right_on),
        ("as", Value.str name),
        ("let", Value.doc letv),
        ("pipeline", Value.arr pl)])] := ⟨rfl, rfl⟩

/-- Claim C4: the bucket-auto stage built with buckets 5, by "$price" and no
output compiles to the documented statement with output and granularity null;
and whenever an explicit output mapping is supplied, the compiled output field
equals exactly that mapping, with no implicit count field added. -/
theorem c4_bucket_auto_statement :
    (∃ b, BucketAuto.mkBucketAuto (Value.str "$price") 5 none none = Except.ok b ∧
      b.statement = Value.doc [("$bucketAuto", Value.doc [
        ("groupBy", Value.str "$price"),
        ("buckets", Value.int 5),
        ("output", Value.null),
        ("granularity", Value.null)])]) ∧
    (∀ byv n out g, n > 0 →
      ∃ b, BucketAuto.mkBucketAuto byv n (some out) g = Except.ok b ∧
        (b.statement.getKey "$bucketAuto").bind (fun d => d.getKey "output") =
          some (Value.doc out)) := by
  refine ⟨⟨_, rfl, rfl⟩, fun byv n out g hn => ?_⟩
  refine ⟨⟨validate_field_path byv, n, some out, g⟩, ?_, ?_⟩
  · simp [BucketAuto.mkBucketAuto, hn]
  · simp [BucketAuto.statement, Value.getKey, List.find?]

/-- Claim C4 witness: a bucket-auto stage with an explicit output mapping. -/
theorem c4_bucket_auto_statement_witness :
    ∃ b, BucketAuto.mkBucketAuto (Value.str "$price") 2
        (some [("avg", Value.doc [("$avg", Value.str "$price")])]) none = Except.ok b ∧
      (b.statement.getKey "$bucketAuto").bind (fun d => d.getKey "output") =
        some (Value.doc [("avg", Value.doc [("$avg", Value.str "$price")])]) :=
  (c4_bucket_auto_statement).2 (Value.str "$price") 2
    [("avg", Value.doc [("$avg", Value.str "$price")])] none (by decide)

/-- Claim C5 (failing input): the Last accumulator operator compiles its
statement under the key "$push" rather than its own wire name "$last",
contradicting the module's stated purpose; both the model and the helper
function show the wrong key. -/
theorem c5_last_compiles_to_push :
    (Last.mk (Value.str "$date")).statement = Value.doc [("$push", Value.str "$date")] ∧
    last (Value.str "$date") = Value.doc [("$push", Value.str "$date")] := ⟨rfl, rfl⟩

/-- Claim C6: the $in operator compiles to a fixed two-element array holding
the expression parameter first and the array parameter second, in the declared
parameter order, for every pair of expressions. -/
theorem c6_in_fixed_array_order (e a : Value) :
    (IN.mk e a).statement = Value.doc [("$in", Value.arr [e, a])] := rfl

/-- Claim C7: the equals clause helper raises a TypeError whose message names
the current operator when that operator is not a boolean-compound; when it is
a compound, the same call succeeds and returns the stage. -/
theorem c7_equals_requires_compound (s : SearchBase) (t : ClauseType)
    (path value : Value) (score : Option Value) :
    (isCompoundOpt s.operator = false →
      s.equals t path value score =
        Except.error (PyError.typeError ("Cannot call equals on " ++ strOptOperator s.operator))) ∧
    (isCompoundOpt s.operator = true →
      ∃ op2, s.equals t path value score = Except.ok {s with operator := some op2}) := by
  constructor
  · intro h
    simp [SearchBase.equals, h]
  · intro h
    cases hop : s.operator with
    | none => rw [hop] at h; simp [isCompoundOpt] at h
    | some op =>
      rw [hop] at h
      simp [isCompoundOpt] at h
      refine ⟨op.addClause t (SearchOperator.equals path value score), ?_⟩
      simp [SearchBase.equals, hop, isCompoundOpt, h]

/-- Claim C7 witness: the equals helper on a stage holding an exists operator
and on a stage holding a compound operator. -/
theorem c7_equals_requires_compound_witness :
    searchWithExists.equals ClauseType.must (Value.str "p") (Value.int 1) none =
      Except.error (PyError.typeError "Cannot call equals on Exists") ∧
    (∃ op2, searchWithCompound.equals ClauseType.must (Value.str "p") (Value.int 1) none =
      Except.ok {searchWithCompound with operator := some op2}) := by
  constructor
  · exact (c7_equals_requires_compound searchWithExists ClauseType.must
      (Value.str "p") (Value.int 1) none).1 rfl
  · exact (c7_equals_requires_compound searchWithCompound ClauseType.must
      (Value.str "p") (Value.int 1) none).2 rfl

/-- Claim C10: on a stage whose current operator is a boolean-compound, every
clause helper (autocomplete, equals, exists, range, regex, text, wildcard)
succeeds and returns the same stage (only its operator updated in place),
whereas the compound helper returns the newly nested compound operator rather
than the stage. -/
theorem c10_helpers_return_stage (s : SearchBase) (t : ClauseType)
    (q p v : Value) (token_order : String) (fz sc : Option Value) (b : Bool)
    (syn : Option String) (gt lt gte lte : Option Value)
    (m mn sh f : List SearchOperator) (msm : Int)
    (h : isCompoundOpt s.operator = true) :
    (∃ o, s.autocomplete t q p token_order fz sc = Except.ok {s with operator := some o}) ∧
    (∃ o, s.equals t p v sc = Except.ok {s with operator := some o}) ∧
    (∃ o, s.«exists» t p = Except.ok {s with operator := some o}) ∧
    (∃ o, s.range t p gt lt gte lte sc = Except.ok {s with operator := some o}) ∧
    (∃ o, s.regex t q p b sc = Except.ok {s with operator := some o}) ∧
    (∃ o, s.text t q p fz sc syn = Except.ok {s with operator := some o}) ∧
    (∃ o, s.wildcard t q p b sc = Except.ok {s with operator := some o}) ∧
    (∃ s2, s.compound t m mn sh f msm =
      Except.ok (SearchOperator.compound m mn sh f msm, s2)) := by
  cases hop : s.operator with
  | none => rw [hop] at h; simp [isCompoundOpt] at h
  | some op =>
    rw [hop] at h
    simp [isCompoundOpt] at h
    refine ⟨⟨op.addClause t (SearchOperator.autocomplete q p token_order fz sc), ?_⟩,
      ⟨op.addClause t (SearchOperator.equals p v sc), ?_⟩,
      ⟨op.addClause t (SearchOperator.«exists» p), ?_⟩,
      ⟨op.addClause t (SearchOperator.range p gt lt gte lte sc), ?_⟩,
      ⟨op.addClause t (SearchOperator.regex q p b sc), ?_⟩,
      ⟨op.addClause t (SearchOperator.text q p fz sc syn), ?_⟩,
      ⟨op.addClause t (SearchOperator.wildcard q p b sc), ?_⟩,
      ⟨{s with operator := some (op.addClause t (SearchOperator.compound m mn sh f msm))}, ?_⟩⟩ <;>
      simp [SearchBase.autocomplete, SearchBase.equals, SearchBase.«exists», SearchBase.range,
        SearchBase.regex, SearchBase.text, SearchBase.wildcard, SearchBase.compound,
        hop, isCompoundOpt, h]

/-- Claim C10 witness: all helpers on the sample stage holding a compound
operator. -/
theorem c10_helpers_return_stage_witness :
    (∃ o, searchWithCompound.autocomplete ClauseType.should (Value.str "q") (Value.str "p")
      "any" none none = Except.ok {searchWithCompound with operator := some o}) ∧
    (∃ o, searchWithCompound.equals ClauseType.should (Value.str "p") (Value.bool true) none =
      Except.ok {searchWithCompound with operator := some o}) ∧
    (∃ o, searchWithCompound.«exists» ClauseType.should (Value.str "p") =
      Except.ok {searchWithCompound with operator := some o}) ∧
    (∃ o, searchWithCompound.range ClauseType.should (Value.str "p") none none none none none =
      Except.ok {searchWithCompound with operator := some o}) ∧
    (∃ o, searchWithCompound.regex ClauseType.should (Value.str "q") (Value.str "p") false none =
      Except.ok {searchWithCompound with operator := some o}) ∧
    (∃ o, searchWithCompound.text ClauseType.should (Value.str "q") (Value.str "p") none none
      none = Except.ok {searchWithCompound with operator := some o}) ∧
    (∃ o, searchWithCompound.wildcard ClauseType.should (Value.str "q") (Value.str "p") false
      none = Except.ok {searchWithCompound with operator := some o}) ∧
    (∃ s2, searchWithCompound.compound ClauseType.should [] [] [] [] 1 =
      Except.ok (SearchOperator.compound [] [] [] [] 1, s2)) :=
  c10_helpers_return_stage searchWithCompound ClauseType.should (Value.str "q") (Value.str "p")
    (Value.bool true) "any" none none false none none none none none [] [] [] [] 1 rfl
